import Mathlib

/-!
Shallow embedding of the session-lifecycle and message-ingestion engine of
the whatsapp-summary repository (WhatsAppService in the whatsapp service
module, DatabaseService in the database module), together with proofs of the
behavioural claims about it.

Conventions of the embedding:
* JavaScript objects become structures; the sqlite `messages` table becomes a
  list of rows; `INSERT OR REPLACE` becomes remove-conflicting-then-append.
* Asynchronous code is modelled by explicit state passing; `setTimeout` /
  `await delay` become data (the armed delay in milliseconds) returned next
  to the new state.
* Fallible storage is modelled by an oracle `fail : MessageData → Bool`
  deciding which writes throw; a thrown error is an `Except.error`.
* Clock reads (`Date.now()`) are explicit `Nat` parameters (milliseconds);
  `Math.random() * randomDelayMax` is an explicit `rand` parameter.
* The external `moment(...).format(...)` date renderer is abstracted by an
  executable stand-in `formatTimestamp`; no claim depends on the format.
-/

namespace WhatsAppSummary

/-- One row of the sqlite `messages` table (DatabaseService.createTables);
the autoincrement surrogate key is immaterial to the claims and omitted.
`wa_message_id` is declared UNIQUE in the schema. -/
structure StoredRow where
  wa_message_id : String
  chat_id : String
  chat_name : String
  sender_id : String
  sender_name : String
  timestamp : String
  content : String
  is_group : Bool
deriving DecidableEq, Repr

/-- The `messages` table contents, in insertion order. -/
abbrev Store := List StoredRow

/-- The `messageData` object built by WhatsAppService.handleIncomingMessage
and consumed by processMessage / DatabaseService.storeMessage. -/
structure MessageData where
  waMessageId : String
  chatId : String
  chatName : String
  senderId : String
  senderName : String
  timestamp : String
  content : String
  isGroup : Bool
deriving DecidableEq, Repr

/-- Column mapping performed by the parameter list of
DatabaseService.storeMessage (`params = [message.waMessageId, ...]`). -/
def toRow (m : MessageData) : StoredRow :=
  { wa_message_id := m.waMessageId
    chat_id := m.chatId
    chat_name := m.chatName
    sender_id := m.senderId
    sender_name := m.senderName
    timestamp := m.timestamp
    content := m.content
    is_group := m.isGroup }

/-- DatabaseService.getMessageByWhatsAppId:
`SELECT * FROM messages WHERE wa_message_id = ?` through `get`, which
resolves with the first matching row, or with nothing. -/
def getMessageByWhatsAppId (s : Store) (waMessageId : String) : Option StoredRow :=
  s.find? (fun r => r.wa_message_id == waMessageId)

/-- DatabaseService.storeMessage:
`INSERT OR REPLACE INTO messages (...) VALUES (...)`; under the sqlite
REPLACE conflict policy any row conflicting on UNIQUE `wa_message_id` is deleted
and the fresh row appended.  A storage error (decided by the oracle `fail`)
is re-thrown to the caller, as the catch block in storeMessage does. -/
def storeMessage (fail : MessageData → Bool) (s : Store) (m : MessageData) :
    Except String Store :=
  if fail m then .error "db error"
  else .ok (s.filter (fun r => r.wa_message_id ≠ m.waMessageId) ++ [toRow m])

/-- WhatsAppService.processMessage: skip when the database is not ready;
look the external id up and skip when already present; otherwise insert.
Every error is caught and logged inside this function — the store is left
as it was and nothing propagates to the caller. -/
def processMessage (fail : MessageData → Bool) (dbReady : Bool)
    (s : Store) (m : MessageData) : Store :=
  if !dbReady then s
  else
    match getMessageByWhatsAppId s m.waMessageId with
    | some _ => s
    | none =>
      match storeMessage fail s m with
      | .ok s' => s'
      | .error _ => s

/-- The chat object resolved by `message.getChat()`, with the chat id
already flattened the way the resolution chain in handleIncomingMessage
does. -/
structure RawChat where
  isGroup : Bool
  name : String
  chatId : String
deriving DecidableEq, Repr

/-- A raw inbound WhatsApp event, with the message id already flattened the
way the resolution chain in handleIncomingMessage does. -/
structure RawMessage where
  isStatus : Bool
  fromMe : Bool
  sender : String
  notifyName : Option String
  author : Option String
  timestampSec : Nat
  body : String
  messageId : String
  chat : RawChat
deriving DecidableEq, Repr

/-- JavaScript `a || b` over a possibly-missing string: `undefined` and the
empty string are falsy and fall through to the default. -/
def jsOr (a : Option String) (b : String) : String :=
  match a with
  | some s => if s = "" then b else s
  | none => b

/-- The fallback chain `message._data.notifyName || message.author ||` the
literal `Unknown`. -/
def resolveSenderName (m : RawMessage) : String :=
  jsOr m.notifyName (jsOr m.author "Unknown")

/-- Stand-in for `moment(message.timestamp * 1000).format(...)` with the
year-month-day hour-minute-second pattern; the external renderer is
abstracted and no claim depends on the concrete format. -/
def formatTimestamp (sec : Nat) : String :=
  toString sec

/-- The `messageData` extraction block of handleIncomingMessage. -/
def extractMessageData (m : RawMessage) : MessageData :=
  { waMessageId := m.messageId
    chatId := m.chat.chatId
    chatName := m.chat.name
    senderId := m.sender
    senderName := resolveSenderName m
    timestamp := formatTimestamp m.timestampSec
    content := m.body
    isGroup := m.chat.isGroup }

/-- The mutable service state touched by the ingestion path: the pending
buffer (`this.pendingMessages`), the monitored-group set
(`this.monitoredGroups`, a JS Set kept here as a duplicate-free list in
insertion order), the message store, and the database readiness flag. -/
structure ServiceState where
  pendingMessages : List MessageData
  monitoredGroups : List String
  store : Store
  dbReady : Bool
deriving DecidableEq, Repr

/-- WhatsAppService.handleIncomingMessage for one raw event:
skip status messages; drop events whose chat is not a group or whose chat
name is not monitored; otherwise extract `messageData`, push it onto
`pendingMessages`, and — when batch processing is disabled by
configuration — also run processMessage immediately. -/
def handleIncomingMessage (batchEnabled : Bool) (fail : MessageData → Bool)
    (st : ServiceState) (msg : RawMessage) : ServiceState :=
  if msg.isStatus then st
  else if !msg.chat.isGroup || !(st.monitoredGroups.contains msg.chat.name) then st
  else
    let md := extractMessageData msg
    let st1 := { st with pendingMessages := st.pendingMessages ++ [md] }
    if !batchEnabled then
      { st1 with store := processMessage fail st1.dbReady st1.store md }
    else st1

/-- The per-record step applied left to right over a drained batch.
WhatsAppService.processBatchMessages maps processMessage over the drained
records in concurrency groups of 10 through Promise.all; since every
per-record error is caught inside processMessage and insertion order within
a group is immaterial (dedup is by id), the run is modelled as a fold. -/
def processBatch (fail : MessageData → Bool) (dbReady : Bool)
    (s : Store) (batch : List MessageData) : Store :=
  batch.foldl (processMessage fail dbReady) s

/-- The expression `config.get(...) || 100` reading
whatsapp.batchProcessing.maxMessagesPerBatch: a missing value falls back to
100, and so does a configured 0, because 0 is falsy in JavaScript. -/
def resolveMaxPerBatch (cfg : Option Nat) : Nat :=
  match cfg with
  | some v => if v = 0 then 100 else v
  | none => 100

/-- WhatsAppService.processBatchMessages: return at once when the buffer is
empty; otherwise `splice(0, maxMessagesPerBatch)` the front of the buffer
out and run the per-record step over the drained records.  Returns the
buffer left for the next cycle and the store after the run. -/
def processBatchMessages (cfg : Option Nat) (fail : MessageData → Bool)
    (dbReady : Bool) (buf : List MessageData) (s : Store) :
    List MessageData × Store :=
  if buf.isEmpty then (buf, s)
  else
    let maxMessagesPerBatch := resolveMaxPerBatch cfg
    let messagesToProcess := buf.take maxMessagesPerBatch
    (buf.drop maxMessagesPerBatch, processBatch fail dbReady s messagesToProcess)

/-- The reconnection bookkeeping of WhatsAppService:
`reconnectAttempts` (starts at 0, reset to 0 on the ready event),
`maxReconnectAttempts` and `reconnectInterval` from configuration, and
whether the max-attempts-reached status notification has been sent. -/
structure ReconnState where
  reconnectAttempts : Nat
  maxReconnectAttempts : Nat
  reconnectInterval : Nat
  failureReported : Bool
deriving DecidableEq, Repr

/-- WhatsAppService.scheduleReconnect: when the attempt counter has reached
the configured maximum, log, send the manual-intervention-required status
notification and return without arming a timer; otherwise increment the
counter and arm a `setTimeout` for `reconnectInterval * reconnectAttempts`
milliseconds.  The armed delay is returned as data (`none` = no timer). -/
def scheduleReconnect (st : ReconnState) : ReconnState × Option Nat :=
  if st.reconnectAttempts ≥ st.maxReconnectAttempts then
    ({ st with failureReported := true }, none)
  else
    let attempts := st.reconnectAttempts + 1
    ({ st with reconnectAttempts := attempts }, some (st.reconnectInterval * attempts))

/-- A run of consecutive reconnect failures: the disconnect handler calls
scheduleReconnect; whenever a timer is armed, the attempt it fires runs
`reconnect`, fails, and the catch block calls scheduleReconnect again.
`calls` bounds the number of scheduleReconnect invocations; the chain stops
by itself once no timer is armed.  Returns the final state and the list of
armed timer delays. -/
def reconnectRun (st : ReconnState) : (calls : Nat) → ReconnState × List Nat
  | 0 => (st, [])
  | calls + 1 =>
    match scheduleReconnect st with
    | (st', none) => (st', [])
    | (st', some d) =>
      let (st'', ds) := reconnectRun st' calls
      (st'', d :: ds)

/-- Fresh reconnection state after a ready event: counter 0, nothing
reported, with configured maximum and base interval. -/
def initReconn (maxAttempts baseInterval : Nat) : ReconnState :=
  { reconnectAttempts := 0
    maxReconnectAttempts := maxAttempts
    reconnectInterval := baseInterval
    failureReported := false }

/-- The safety-throttle fields of WhatsAppService. -/
structure SafetyState where
  enableRateLimiting : Bool
  enableHumanLikeBehavior : Bool
  lastActivityTime : Nat
  activityCount : Nat
  maxActivityPerHour : Nat
  minDelayBetweenActions : Nat
  randomDelayMax : Nat
deriving DecidableEq, Repr

/-- WhatsAppService.safetyCheck.  `now` is `Date.now()` at entry, `now2` the
`Date.now()` read at the final `this.lastActivityTime = Date.now()` (the
awaits in between may let time pass), `rand` the sampled
`Math.random() * this.randomDelayMax`.  Returns the new state and the list
of `delay(...)` suspensions performed, in milliseconds. -/
def safetyCheck (st : SafetyState) (now now2 rand : Nat) :
    SafetyState × List Nat :=
  if !st.enableRateLimiting && !st.enableHumanLikeBehavior then (st, [])
  else
    let timeSinceLastActivity := now - st.lastActivityTime
    let count1 := if timeSinceLastActivity > 3600000 then 0 else st.activityCount
    let step2 :=
      if st.enableRateLimiting && count1 ≥ st.maxActivityPerHour then
        ((0 : Nat), [(30000 : Nat)])
      else (count1, [])
    let d2 :=
      if st.enableRateLimiting && timeSinceLastActivity < st.minDelayBetweenActions then
        [st.minDelayBetweenActions - timeSinceLastActivity]
      else []
    let d3 := if st.enableHumanLikeBehavior then [rand] else []
    ({ st with lastActivityTime := now2, activityCount := step2.1 + 1 },
      step2.2 ++ d2 ++ d3)

/-- One `{name, addedAt}` record of the monitored-groups side file
(`./data/monitored-groups.json`). -/
structure GroupEntry where
  name : String
  addedAt : String
deriving DecidableEq, Repr

/-- JS `Set.prototype.add` on the duplicate-free insertion-ordered list
modelling `this.monitoredGroups`. -/
def setAdd (l : List String) (n : String) : List String :=
  if n ∈ l then l else l ++ [n]

/-- WhatsAppService.saveMonitoredGroups: serialize the current membership
as an array of `{name, addedAt: new Date().toISOString()}` objects; the
persist happens at one instant `nowIso`, stamped on every entry. -/
def saveMonitoredGroups (groups : List String) (nowIso : String) :
    List GroupEntry :=
  groups.map (fun groupName => { name := groupName, addedAt := nowIso })

/-- The `groupsData.forEach` body of WhatsAppService.loadMonitoredGroups:
`if (group.name)` adds the name to the set — a missing or empty name is
falsy and is skipped. -/
def addEntries (acc : List String) (entries : List GroupEntry) : List String :=
  entries.foldl (fun acc g => if g.name = "" then acc else setAdd acc g.name) acc

/-- WhatsAppService.loadMonitoredGroups run on a fresh (empty) registry:
a missing file (`none`) leaves the registry empty with a log line; a file
that fails to parse (`Except.error`) is caught, logged, and likewise leaves
the registry empty; a parsed file has each entry with a truthy name added. -/
def loadMonitoredGroups (file : Option (Except String (List GroupEntry))) :
    List String :=
  match file with
  | none => []
  | some (.error _) => []
  | some (.ok groupsData) => addEntries [] groupsData

/-! Concrete sample inputs used by witnesses and counterexamples. -/

/-- A monitored group chat. -/
def sampleChat : RawChat :=
  { isGroup := true, name := "ClassGroup", chatId := "123@g.us" }

/-- An ordinary accepted group message. -/
def sampleMsg : RawMessage :=
  { isStatus := false, fromMe := false, sender := "456@c.us"
    notifyName := some "Alice", author := none, timestampSec := 1700000000
    body := "hi", messageId := "m1", chat := sampleChat }

/-- A direct (non-group) message. -/
def samplePrivateMsg : RawMessage :=
  { sampleMsg with chat := { isGroup := false, name := "Bob", chatId := "789@c.us" } }

/-- A fresh service state monitoring exactly the sample group. -/
def sampleState : ServiceState :=
  { pendingMessages := [], monitoredGroups := ["ClassGroup"], store := []
    dbReady := true }

/-! Claims. -/

/-- C1: persisting the same externalId twice yields exactly one stored
record.  Whenever the external id of `m` is already present in the store,
processMessage performs no insert, leaves every stored row exactly as it
was, and raises no error (processMessage is total: every storage error is
caught inside it). -/
theorem processMessage_idempotent_on_existing (fail : MessageData → Bool)
    (dbReady : Bool) (s : Store) (m : MessageData) (r : StoredRow)
    (h : getMessageByWhatsAppId s m.waMessageId = some r) :
    processMessage fail dbReady s m = s := by
  unfold processMessage
  cases dbReady <;> simp [h]

/-- Witness for C1: re-running processMessage on a store already holding
the sample record leaves the store untouched, even under an oracle that
fails every write. -/
theorem processMessage_idempotent_on_existing_witness :
    processMessage (fun _ => true) true [toRow (extractMessageData sampleMsg)]
      (extractMessageData sampleMsg) = [toRow (extractMessageData sampleMsg)] :=
  processMessage_idempotent_on_existing (fun _ => true) true
    [toRow (extractMessageData sampleMsg)] (extractMessageData sampleMsg)
    (toRow (extractMessageData sampleMsg)) rfl

/-- C2: an event whose chat is not a group chat, or whose chat display name
is not in the monitored set when the event is handled, changes nothing:
handleIncomingMessage appends nothing to the pending buffer and persists
nothing to the store. -/
theorem handleIncomingMessage_drops_unmonitored (batchEnabled : Bool)
    (fail : MessageData → Bool) (st : ServiceState) (msg : RawMessage)
    (h : msg.chat.isGroup = false ∨
      st.monitoredGroups.contains msg.chat.name = false) :
    handleIncomingMessage batchEnabled fail st msg = st := by
  unfold handleIncomingMessage
  rcases h with h | h
  · simp [h]
  · have hmem : msg.chat.name ∉ st.monitoredGroups := by simpa using h
    simp [hmem]

/-- Witness for C2: a direct message leaves the sample state untouched. -/
theorem handleIncomingMessage_drops_unmonitored_witness :
    handleIncomingMessage true (fun _ => false) sampleState samplePrivateMsg
      = sampleState :=
  handleIncomingMessage_drops_unmonitored true (fun _ => false) sampleState
    samplePrivateMsg (Or.inl rfl)

/-- C3 counterexample: with batch processing disabled, an accepted event is
still appended to the pending buffer — the buffer is not bypassed.  From an
empty buffer, handling the sample message with batching disabled leaves the
extracted record sitting in the buffer. -/
theorem handleIncomingMessage_no_buffer_bypass :
    (handleIncomingMessage false (fun _ => false) sampleState
        sampleMsg).pendingMessages = [extractMessageData sampleMsg]
    ∧ sampleState.pendingMessages = [] :=
  ⟨rfl, rfl⟩

/-- C3 amended: with batch processing disabled, an accepted event is
appended to the pending buffer AND persisted immediately through the same
dedup-and-store path (processMessage) used by the batch processor. -/
theorem handleIncomingMessage_batchDisabled_enqueues_and_persists
    (fail : MessageData → Bool) (st : ServiceState) (msg : RawMessage)
    (h1 : msg.isStatus = false) (h2 : msg.chat.isGroup = true)
    (h3 : st.monitoredGroups.contains msg.chat.name = true) :
    handleIncomingMessage false fail st msg =
      { st with
          pendingMessages := st.pendingMessages ++ [extractMessageData msg]
          store := processMessage fail st.dbReady st.store
            (extractMessageData msg) } := by
  have hmem : msg.chat.name ∈ st.monitoredGroups := by simpa using h3
  unfold handleIncomingMessage
  simp [h1, h2, hmem]

/-- Witness for C3 amended: the sample message, with batching disabled, is
both enqueued and immediately persisted. -/
theorem handleIncomingMessage_batchDisabled_witness :
    handleIncomingMessage false (fun _ => false) sampleState sampleMsg =
      { sampleState with
          pendingMessages :=
            sampleState.pendingMessages ++ [extractMessageData sampleMsg]
          store := processMessage (fun _ => false) sampleState.dbReady
            sampleState.store (extractMessageData sampleMsg) } :=
  handleIncomingMessage_batchDisabled_enqueues_and_persists (fun _ => false)
    sampleState sampleMsg rfl rfl rfl

/-- Helper for C4: from attempt counter `a ≤ M`, a long enough chain of
consecutive reconnect failures ends in the state with the counter stuck at
`M` and the failure reported, having armed exactly `M - a` timers. -/
theorem reconnectRun_exhausts (M b : Nat) :
    ∀ k a, a ≤ M → M - a < k →
      (reconnectRun ⟨a, M, b, false⟩ k).1 = ⟨M, M, b, true⟩
      ∧ (reconnectRun ⟨a, M, b, false⟩ k).2.length = M - a := by
  intro k
  induction k with
  | zero => intro a _ h; omega
  | succ k ih =>
    intro a ha h
    by_cases ham : M ≤ a
    · have haM : a = M := le_antisymm ha ham
      subst haM
      refine ⟨?_, ?_⟩ <;> simp [reconnectRun, scheduleReconnect]
    · have hs : scheduleReconnect ⟨a, M, b, false⟩
          = (⟨a + 1, M, b, false⟩, some (b * (a + 1))) := by
        simp [scheduleReconnect, ham]
      obtain ⟨ih1, ih2⟩ := ih (a + 1) (by omega) (by omega)
      rcases hr : reconnectRun ⟨a + 1, M, b, false⟩ k with ⟨stF, ds⟩
      rw [hr] at ih1 ih2
      have hunfold : reconnectRun ⟨a, M, b, false⟩ (k + 1)
          = (stF, b * (a + 1) :: ds) := by
        simp [reconnectRun, hs, hr]
      rw [hunfold]
      refine ⟨ih1, ?_⟩
      simp only [List.length_cons, ih2]
      omega

/-- C4: for N consecutive failed reconnect attempts with configured maximum
M, if N > M the run ends with the max-attempts-reached condition reported
(the Failed terminal), the counter stuck at M, exactly M timers ever armed,
and — once the counter has reached the maximum — scheduleReconnect returns
without arming any further timer.  Totality of the model is the
no-crash part. -/
theorem reconnect_exhaustion (M b N : Nat) (h : N > M) :
    (reconnectRun (initReconn M b) N).1.failureReported = true
    ∧ (reconnectRun (initReconn M b) N).1.reconnectAttempts = M
    ∧ (reconnectRun (initReconn M b) N).2.length = M
    ∧ ∀ st : ReconnState,
        st.reconnectAttempts ≥ st.maxReconnectAttempts →
          (scheduleReconnect st).2 = none := by
  obtain ⟨h1, h2⟩ := reconnectRun_exhausts M b N 0 (Nat.zero_le M) (by omega)
  have hinit : initReconn M b = ⟨0, M, b, false⟩ := rfl
  refine ⟨?_, ?_, ?_, ?_⟩
  · rw [hinit, h1]
  · rw [hinit, h1]
  · rw [hinit, h2]
    omega
  · intro st hst
    unfold scheduleReconnect
    rw [if_pos hst]

/-- Witness for C4: with maxAttempts 2 and base 5, a chain of 3 calls ends
reported with exactly 2 timers armed, and a state already at the maximum
arms nothing. -/
theorem reconnect_exhaustion_witness :
    (reconnectRun (initReconn 2 5) 3).1.failureReported = true
    ∧ (reconnectRun (initReconn 2 5) 3).2.length = 2
    ∧ (scheduleReconnect ⟨2, 2, 5, false⟩).2 = none := by
  obtain ⟨w1, _, w3, w4⟩ := reconnect_exhaustion 2 5 3 (by decide)
  exact ⟨w1, w3, w4 ⟨2, 2, 5, false⟩ (by decide)⟩

/-- C5: when an attempt is still available, the armed delay before attempt
n (counter n-1 before the call) is baseInterval * n, and the delay armed
for the following attempt, baseInterval * (n+1), is strictly greater
whenever the base interval is positive. -/
theorem scheduleReconnect_linear_backoff (st : ReconnState)
    (h1 : st.reconnectAttempts + 1 < st.maxReconnectAttempts)
    (h2 : 0 < st.reconnectInterval) :
    (scheduleReconnect st).2
        = some (st.reconnectInterval * (st.reconnectAttempts + 1))
    ∧ (scheduleReconnect (scheduleReconnect st).1).2
        = some (st.reconnectInterval * (st.reconnectAttempts + 2))
    ∧ st.reconnectInterval * (st.reconnectAttempts + 1)
        < st.reconnectInterval * (st.reconnectAttempts + 2) := by
  have hn1 : ¬ st.reconnectAttempts ≥ st.maxReconnectAttempts := by omega
  have hn2 : ¬ st.reconnectAttempts + 1 ≥ st.maxReconnectAttempts := by omega
  refine ⟨?_, ?_, ?_⟩
  · simp [scheduleReconnect, hn1]
  · simp [scheduleReconnect, hn1, hn2]
  · exact mul_lt_mul_of_pos_left (by omega) h2

/-- Witness for C5: from a fresh state with base interval 30000 and a
maximum of 5 attempts, the first two armed delays are 30000 and 60000. -/
theorem scheduleReconnect_linear_backoff_witness :
    (scheduleReconnect (initReconn 5 30000)).2 = some 30000
    ∧ (scheduleReconnect (scheduleReconnect (initReconn 5 30000)).1).2
        = some 60000
    ∧ (30000 : Nat) < 60000 := by
  simpa [initReconn] using
    scheduleReconnect_linear_backoff (initReconn 5 30000) (by decide) (by decide)

/-- C6 counterexample: safetyCheck measures the hour against the last
recorded call, not against the last counter reset.  Starting from a fresh
throttle (counter 0 at time 0), a call at t = 3000000 ms (50 min) and a
call at t = 6000000 ms (100 min) leave the counter at 2: at the second call
more than one hour (second conjunct) has elapsed since the counter was last
at zero, yet no reset happens — the claim mandates a reset followed by the
increment, i.e. a counter of 1 — because the first call refreshed
lastActivityTime. -/
theorem safetyCheck_reset_measures_last_call :
    ((safetyCheck ((safetyCheck
          ⟨true, false, 0, 0, 100, 0, 0⟩ 3000000 3000000 0).1)
        6000000 6000000 0).1).activityCount = 2
    ∧ 6000000 - (0 : Nat) > 3600000 :=
  ⟨rfl, by decide⟩

/-- C6 amended: the hourly counter is reset exactly when more than one hour
has elapsed since the last recorded call (lastActivityTime, refreshed on
every call), not since the last reset: a call more than an hour after the
previous one restarts the count at 1, and a call within an hour of the
previous one increments it, no matter how long ago the counter was last
reset. -/
theorem safetyCheck_hourly_reset (st : SafetyState) (now now2 rand : Nat)
    (hrl : st.enableRateLimiting = true) (hmax : 0 < st.maxActivityPerHour) :
    (now - st.lastActivityTime > 3600000 →
        (safetyCheck st now now2 rand).1.activityCount = 1)
    ∧ (now - st.lastActivityTime ≤ 3600000 →
        st.activityCount < st.maxActivityPerHour →
        (safetyCheck st now now2 rand).1.activityCount = st.activityCount + 1) := by
  refine ⟨fun hgap => ?_, fun hle hcount => ?_⟩
  · have h0 : ¬ st.maxActivityPerHour ≤ 0 := by omega
    simp [safetyCheck, hrl, hgap, h0]
  · have hng : ¬ 3600000 < now - st.lastActivityTime := by omega
    have hnc : ¬ st.maxActivityPerHour ≤ st.activityCount := by omega
    simp [safetyCheck, hrl, hng, hnc]

/-- Witness for C6 amended: from a counter of 7, a call 4000000 ms after
the previous one restarts the count at 1, while a call 1000 ms after the
previous one pushes it to 8. -/
theorem safetyCheck_hourly_reset_witness :
    ((safetyCheck ⟨true, false, 0, 7, 100, 0, 0⟩
        4000000 4000000 0).1).activityCount = 1
    ∧ ((safetyCheck ⟨true, false, 0, 7, 100, 0, 0⟩
        1000 1000 0).1).activityCount = 8 := by
  refine ⟨?_, ?_⟩
  · exact (safetyCheck_hourly_reset ⟨true, false, 0, 7, 100, 0, 0⟩
      4000000 4000000 0 rfl (by decide)).1 (by decide)
  · exact (safetyCheck_hourly_reset ⟨true, false, 0, 7, 100, 0, 0⟩
      1000 1000 0 rfl (by decide)).2 (by decide) (by decide)

/-- Helper for C7: a record whose write fails is handled entirely inside
processMessage — the catch block swallows the error and the store is left
as it was.  This also covers the case where the failing record was already
present, in which case the write is never attempted. -/
theorem processMessage_eq_of_fail (fail : MessageData → Bool)
    (dbReady : Bool) (s : Store) (m : MessageData) (hm : fail m = true) :
    processMessage fail dbReady s m = s := by
  unfold processMessage storeMessage
  cases dbReady
  · simp
  · cases hfind : getMessageByWhatsAppId s m.waMessageId <;> simp [hfind, hm]

/-- C7: a persistence failure for a single record is caught inside the
per-record step (first conjunct: the failing step returns the store
unchanged instead of raising), and the surrounding run is unaffected
(second conjunct: the whole run equals the run with the failing record
removed, so every other record of the batch is still attempted with the
same outcome).  Totality of processBatch is the no-abort-no-crash part. -/
theorem batch_survives_record_failure (fail : MessageData → Bool)
    (dbReady : Bool) (s : Store) (xs ys : List MessageData) (r : MessageData)
    (hr : fail r = true) :
    processMessage fail dbReady (processBatch fail dbReady s xs) r
        = processBatch fail dbReady s xs
    ∧ processBatch fail dbReady s (xs ++ r :: ys)
        = processBatch fail dbReady s (xs ++ ys) := by
  refine ⟨processMessage_eq_of_fail fail dbReady _ r hr, ?_⟩
  unfold processBatch
  rw [List.foldl_append, List.foldl_append, List.foldl_cons,
    processMessage_eq_of_fail fail dbReady _ r hr]

/-- A second sample record, used as the failing one. -/
def sampleMessageB : MessageData :=
  { waMessageId := "m2", chatId := "123@g.us", chatName := "ClassGroup"
    senderId := "457@c.us", senderName := "Bob", timestamp := "1700000100"
    content := "yo", isGroup := true }

/-- Witness for C7: under an oracle failing exactly the write of the second
sample record, the batch containing it ends in the same store as the batch
without it. -/
theorem batch_survives_record_failure_witness :
    processMessage (fun m => m.waMessageId == "m2") true
        (processBatch (fun m => m.waMessageId == "m2") true []
          [extractMessageData sampleMsg]) sampleMessageB
      = processBatch (fun m => m.waMessageId == "m2") true []
          [extractMessageData sampleMsg]
    ∧ processBatch (fun m => m.waMessageId == "m2") true []
        ([extractMessageData sampleMsg] ++ sampleMessageB :: [])
      = processBatch (fun m => m.waMessageId == "m2") true []
          ([extractMessageData sampleMsg] ++ []) :=
  batch_survives_record_failure (fun m => m.waMessageId == "m2") true []
    [extractMessageData sampleMsg] [] sampleMessageB rfl

/-- C8 counterexample: with a configured per-cycle maximum of 0 and one
buffered record, the claim predicts min(1, 0) = 0 records removed and the
record left for the next cycle, but the cycle drains it (the remaining
buffer is empty), because a configured 0 is falsy in JavaScript and
`config.get(...) || 100` silently replaces it with the default 100. -/
theorem processBatchMessages_zero_config_drains :
    (processBatchMessages (some 0) (fun _ => false) true
        [extractMessageData sampleMsg] []).1 = []
    ∧ min [extractMessageData sampleMsg].length 0 = 0 :=
  ⟨rfl, rfl⟩

/-- C8 amended: one batch cycle removes exactly min(buffer length, K)
records from the front of the buffer, oldest first, where K is the
effective per-cycle maximum resolveMaxPerBatch cfg — the configured value
when it is at least 1, and the default 100 when it is missing or 0; the
remaining records stay in the buffer in their original order for the next
cycle, the drained prefix is what the per-record step runs over, and a
cycle on an empty buffer is a no-op. -/
theorem processBatchMessages_drains_front (cfg : Option Nat)
    (fail : MessageData → Bool) (dbReady : Bool)
    (buf : List MessageData) (s : Store) :
    (processBatchMessages cfg fail dbReady buf s).1
        = buf.drop (resolveMaxPerBatch cfg)
    ∧ (buf.take (resolveMaxPerBatch cfg)).length
        = min buf.length (resolveMaxPerBatch cfg)
    ∧ buf.take (resolveMaxPerBatch cfg)
        ++ (processBatchMessages cfg fail dbReady buf s).1 = buf
    ∧ (processBatchMessages cfg fail dbReady buf s).2
        = processBatch fail dbReady s (buf.take (resolveMaxPerBatch cfg))
    ∧ processBatchMessages cfg fail dbReady [] s = ([], s) := by
  have h1 : (processBatchMessages cfg fail dbReady buf s).1
      = buf.drop (resolveMaxPerBatch cfg) := by
    unfold processBatchMessages
    by_cases hb : buf.isEmpty
    · rw [List.isEmpty_iff.mp hb]; simp
    · simp [hb]
  have h4 : (processBatchMessages cfg fail dbReady buf s).2
      = processBatch fail dbReady s (buf.take (resolveMaxPerBatch cfg)) := by
    unfold processBatchMessages
    by_cases hb : buf.isEmpty
    · rw [List.isEmpty_iff.mp hb]; simp [processBatch]
    · simp [hb]
  refine ⟨h1, ?_, ?_, h4, rfl⟩
  · rw [List.length_take, Nat.min_comm]
  · rw [h1, List.take_append_drop]

/-- Helper for C9: loading the serialized form of a duplicate-free list of
truthy (nonempty) names appends exactly those names, in order, to the
accumulated registry. -/
theorem addEntries_save_fresh (t : String) :
    ∀ (gs acc : List String), gs.Nodup →
      (∀ g ∈ gs, g ∉ acc ∧ g ≠ "") →
      addEntries acc (saveMonitoredGroups gs t) = acc ++ gs := by
  intro gs
  induction gs with
  | nil => intro acc _ _; simp [addEntries, saveMonitoredGroups]
  | cons g rest ih =>
    intro acc hnd hfresh
    obtain ⟨hga, hge⟩ := hfresh g (List.mem_cons_self g rest)
    have hstep : addEntries acc (saveMonitoredGroups (g :: rest) t)
        = addEntries (acc ++ [g]) (saveMonitoredGroups rest t) := by
      simp [addEntries, saveMonitoredGroups, setAdd, hge, hga]
    rw [hstep, ih (acc ++ [g]) (List.Nodup.of_cons hnd) ?_]
    · simp
    · intro g2 hg2
      obtain ⟨h2a, h2e⟩ := hfresh g2 (List.mem_cons_of_mem g hg2)
      refine ⟨?_, h2e⟩
      simp only [List.mem_append, List.mem_singleton]
      rintro (hc | hc)
      · exact h2a hc
      · exact (List.nodup_cons.mp hnd).1 (hc ▸ hg2)

/-- C9 amended: the monitored-group set survives a restart for every
duplicate-free set of nonempty names — persisting it and loading the side
file back into an empty registry reproduces exactly the same names — and a
missing or unparseable side file yields the empty registry (with a log
line) instead of a startup failure.  A name that is the empty string is
the one exception: it is saved but skipped on load (counterexample
separate). -/
theorem monitoredGroups_roundtrip (groups : List String) (t errMsg : String)
    (hnd : groups.Nodup) (hne : ∀ g ∈ groups, g ≠ "") :
    loadMonitoredGroups (some (.ok (saveMonitoredGroups groups t))) = groups
    ∧ loadMonitoredGroups none = []
    ∧ loadMonitoredGroups (some (.error errMsg)) = [] := by
  refine ⟨?_, rfl, rfl⟩
  show addEntries [] (saveMonitoredGroups groups t) = groups
  rw [addEntries_save_fresh t groups [] hnd ?_]
  · simp
  · intro g hg
    exact ⟨List.not_mem_nil g, hne g hg⟩

/-- Witness for C9 amended: two ordinary group names survive the
save-then-load round trip, and a missing or corrupt file loads as empty. -/
theorem monitoredGroups_roundtrip_witness :
    loadMonitoredGroups (some (.ok (saveMonitoredGroups
        ["ClassGroup", "Other"] "2024-05-01T10:00:00.000Z")))
      = ["ClassGroup", "Other"]
    ∧ loadMonitoredGroups none = []
    ∧ loadMonitoredGroups (some (.error "SyntaxError")) = [] :=
  monitoredGroups_roundtrip ["ClassGroup", "Other"] "2024-05-01T10:00:00.000Z"
    "SyntaxError" (by decide) (by decide)

/-- C9 counterexample: a group whose name is the empty string is persisted
but dropped on load — the falsy-name guard in loadMonitoredGroups skips it
— so the round trip does not reproduce every set of names. -/
theorem monitoredGroups_roundtrip_empty_name :
    loadMonitoredGroups (some (.ok (saveMonitoredGroups
        [""] "2024-05-01T10:00:00.000Z"))) = []
    ∧ ([""] : List String) ≠ [] :=
  ⟨rfl, by decide⟩

/-- Helper for C10: the names loaded back from a saved file do not depend
on the addedAt stamp the file was saved with. -/
theorem addEntries_save_time_indep (t t2 : String) :
    ∀ (gs acc : List String),
      addEntries acc (saveMonitoredGroups gs t)
        = addEntries acc (saveMonitoredGroups gs t2) := by
  intro gs
  induction gs with
  | nil => intro acc; rfl
  | cons g rest ih =>
    intro acc
    simp only [saveMonitoredGroups, List.map_cons, addEntries, List.foldl_cons]
    exact ih _

/-- C10: every persist stamps every saved group — however long ago it was
added — with the addedAt of that persist: all entries written by
saveMonitoredGroups carry the persist instant, hence all share one addedAt,
and the original addition instant is lost — loading back is invariant under
the stamp the file was saved with. -/
theorem saveMonitoredGroups_addedAt_is_persist_time
    (groups : List String) (t t2 : String) :
    ((saveMonitoredGroups groups t).all fun e => e.addedAt == t) = true
    ∧ loadMonitoredGroups (some (.ok (saveMonitoredGroups groups t)))
        = loadMonitoredGroups (some (.ok (saveMonitoredGroups groups t2))) := by
  constructor
  · simp [saveMonitoredGroups, List.all_eq_true]
  · unfold loadMonitoredGroups
    exact addEntries_save_time_indep t t2 groups []

end WhatsAppSummary
